import Mathlib

/-!
CyberScanX port-scanner core — shallow embedding and verification

This file embeds the scanning core of the CyberScanX repository in Lean 4 and
proves (or refutes) the frozen specification claims about it.

Embedded source units:
* `src/server/services/aiEngine.ts` — the rule-based risk analyzer
  (`AIEngine.analyzePort`, `AIEngine.analyze`, the static `VULN_DB` and
  `SEVERITY_SCORES` tables).
* `src/server/services/scanner.ts` — target sanitization/validation
  (`sanitizeTarget`, `validateTarget`), parameter clamping in
  `ScannerService.startScan`, and the abort registry
  (`activeScans` / `abortScan` / `isActive`).
* `src/server/utils/portQueue.ts` — the single-port probe state machine
  (`scanPort`) and the sliding-window scheduler event loop (`runScan`).

Modelling conventions:
* JavaScript numbers that are only ever used as non-negative counters are
  `Nat`; caller-supplied concurrency/timeout values (which may be negative)
  are `Int`.
* TypeScript string-union types (`"open" | "closed" | "filtered"`, severity
  names) are either small inductives or plain `String`s, matching how the
  source consumes them (the severity is looked up in a string-keyed record,
  so it stays a `String`).
* Stateful code (the scheduler loop, the abort registry) is embedded as pure
  state-transition functions driven by explicit event lists; callback
  invocations are recorded in the state rather than executed.
-/

/-! ## Risk analyzer: `src/server/services/aiEngine.ts` -/

/-- Record `Vulnerability` of `aiEngine.ts` (severity kept as the raw string
used by the string-keyed `SEVERITY_SCORES` lookup). -/
structure Vulnerability where
  severity : String
  title : String
  description : String
  remediation : String
  port : Nat
  deriving DecidableEq, Repr

/-- One `VULN_DB` entry: a `Vulnerability` without its `port` field
(`Omit<Vulnerability, "port">` in the source). -/
structure VulnInfo where
  severity : String
  title : String
  description : String
  remediation : String
  deriving DecidableEq, Repr

/-- Record `PortInsight` of `aiEngine.ts`. -/
structure PortInsight where
  port : Nat
  riskLevel : String
  title : String
  shortDesc : String
  deriving DecidableEq, Repr

/-- Record `SecurityReport` of `aiEngine.ts`. -/
structure SecurityReport where
  riskScore : Nat
  vulnerabilities : List Vulnerability
  summary : String
  deriving DecidableEq, Repr

/-- An element of the `ports` argument of `AIEngine.analyze`
(`{ port: number; banner?: string }`). -/
structure OpenPort where
  port : Nat
  banner : Option String
  deriving DecidableEq, Repr

/-- The static `VULN_DB` table of `aiEngine.ts`, entry for entry. -/
def VULN_DB (port : Nat) : Option VulnInfo :=
  match port with
  | 21 => some ⟨"Medium", "FTP Service Exposed", "FTP may allow anonymous access or brute-force.", "Disable anonymous login; use SFTP instead."⟩
  | 22 => some ⟨"Low", "SSH Service Exposed", "SSH is exposed to brute-force attacks.", "Use key-based auth; disable password login."⟩
  | 23 => some ⟨"High", "Telnet Plaintext Protocol", "Telnet sends all data in cleartext.", "Disable Telnet; migrate to SSH."⟩
  | 25 => some ⟨"Medium", "SMTP Open Relay Risk", "SMTP may be an open relay for spam.", "Restrict relay; enable authentication."⟩
  | 53 => some ⟨"Low", "DNS Service Exposed", "DNS may be vulnerable to amplification.", "Restrict recursive queries; use rate limiting."⟩
  | 80 => some ⟨"Low", "Unencrypted HTTP", "HTTP traffic is unencrypted.", "Enforce HTTPS with TLS certificates."⟩
  | 110 => some ⟨"Medium", "POP3 Plaintext Risk", "POP3 sends credentials in cleartext.", "Use POP3S (port 995) with TLS."⟩
  | 135 => some ⟨"High", "Windows RPC Exposed", "MSRPC is a common attack vector.", "Block port 135 at the firewall."⟩
  | 139 => some ⟨"High", "NetBIOS Session Service", "NetBIOS enables SMB enumeration.", "Disable NetBIOS over TCP/IP."⟩
  | 143 => some ⟨"Medium", "IMAP Plaintext Risk", "IMAP sends credentials in cleartext.", "Use IMAPS (port 993) with TLS."⟩
  | 443 => some ⟨"Low", "HTTPS Service", "Encrypted, but check TLS version.", "Ensure TLS 1.2+ and valid certificates."⟩
  | 445 => some ⟨"High", "SMB Service Exposed", "SMB is frequently targeted (EternalBlue).", "Block port 445 externally; patch SMB."⟩
  | 1433 => some ⟨"High", "MSSQL Exposed", "Database should not be public.", "Restrict to trusted IPs; use VPN."⟩
  | 1521 => some ⟨"High", "Oracle DB Exposed", "Oracle DB should not be public.", "Restrict to trusted IPs; use VPN."⟩
  | 3306 => some ⟨"High", "MySQL Database Exposed", "MySQL should not be on the public internet.", "Restrict to trusted IPs; use VPN."⟩
  | 3389 => some ⟨"High", "RDP Service Exposed", "RDP is a major ransomware vector.", "Use VPN; enable NLA; limit access."⟩
  | 5432 => some ⟨"High", "PostgreSQL Exposed", "Database should not be public.", "Restrict to trusted IPs; use VPN."⟩
  | 5900 => some ⟨"High", "VNC Service Exposed", "VNC may have weak or no authentication.", "Use SSH tunnel; enforce strong auth."⟩
  | 6379 => some ⟨"Critical", "Redis No Auth", "Redis often runs without authentication.", "Enable AUTH; bind to localhost only."⟩
  | 8080 => some ⟨"Low", "HTTP Proxy/Alt Service", "Alternative HTTP service detected.", "Ensure proper access controls."⟩
  | 8443 => some ⟨"Low", "HTTPS Alt Service", "Alternative HTTPS service detected.", "Verify TLS configuration."⟩
  | 27017 => some ⟨"Critical", "MongoDB No Auth", "MongoDB may lack authentication.", "Enable auth; restrict via firewall."⟩
  | _ => none

/-- The string-keyed `SEVERITY_SCORES` record of `aiEngine.ts`
(`Record<string, number>`; lookup of an absent key yields `undefined`,
modelled as `none`). -/
def SEVERITY_SCORES (severity : String) : Option Nat :=
  if severity = "Critical" then some 40
  else if severity = "High" then some 25
  else if severity = "Medium" then some 15
  else if severity = "Low" then some 5
  else none

/-- Embedding of `AIEngine.analyzePort(port, banner?)`.  The declared source return type
is `PortInsight | null`, modelled as `Option PortInsight`; the banner
parameter is declared but never read. -/
def analyzePort (port : Nat) (_banner : Option String) : Option PortInsight :=
  match VULN_DB port with
  | some vuln => some ⟨port, vuln.severity, vuln.title, vuln.description⟩
  | none =>
      -- Unknown open port — still worth noting
      some ⟨port, "Low", "Unknown Service (Port " ++ toString port ++ ")",
            "Open port with unrecognized service."⟩

/-- One iteration of the `for (const p of ports)` loop body of
`AIEngine.analyze`: accumulates the pushed vulnerability records and the
running score (`SEVERITY_SCORES[vuln.severity] ?? 5`). -/
def analyzeStep (acc : List Vulnerability × Nat) (p : OpenPort) :
    List Vulnerability × Nat :=
  match VULN_DB p.port with
  | some vuln =>
      (acc.1 ++ [⟨vuln.severity, vuln.title, vuln.description, vuln.remediation, p.port⟩],
       acc.2 + (SEVERITY_SCORES vuln.severity).getD 5)
  | none => acc

/-- The threshold-selected closing sentence of the summary built by
`AIEngine.analyze`. -/
def summaryTone (finalScore : Nat) : String :=
  if finalScore > 70 then "CRITICAL: Immediate remediation required."
  else if finalScore > 40 then "WARNING: Moderate security risks found."
  else if finalScore > 0 then "Low risk — continue monitoring."
  else "No known vulnerabilities detected."

/-- Embedding of `AIEngine.analyze(ports)`. -/
def analyze (ports : List OpenPort) : SecurityReport :=
  let acc := ports.foldl analyzeStep ([], 0)
  let finalScore := min 100 acc.2
  let summary :=
    "Scan complete. Risk score: " ++ toString finalScore ++ "/100. "
      ++ toString ports.length ++ " open port(s) detected. "
      ++ summaryTone finalScore
  ⟨finalScore, acc.1, summary⟩

/-! ### Specification-level reformulations used to state the claims -/

/-- Severity weight contributed by a single open port: the table entry
weight if the port is in `VULN_DB`, zero otherwise. -/
def portWeight (port : Nat) : Nat :=
  match VULN_DB port with
  | some vuln => (SEVERITY_SCORES vuln.severity).getD 5
  | none => 0

/-- Sum of severity weights over an open-port list. -/
def totalWeight (ports : List OpenPort) : Nat :=
  (ports.map (fun p => portWeight p.port)).sum

/-- The vulnerability records of table-present ports, in input order. -/
def vulnsOf (ports : List OpenPort) : List Vulnerability :=
  ports.filterMap fun p =>
    (VULN_DB p.port).map fun vuln =>
      ⟨vuln.severity, vuln.title, vuln.description, vuln.remediation, p.port⟩

/-- The loop of `AIEngine.analyze`, run from an arbitrary accumulator,
appends exactly the table-present vulnerability records and adds exactly the
summed severity weights. -/
theorem analyze_foldl_eq (ports : List OpenPort) (vs : List Vulnerability) (n : Nat) :
    ports.foldl analyzeStep (vs, n) = (vs ++ vulnsOf ports, n + totalWeight ports) := by
  induction ports generalizing vs n with
  | nil => simp [vulnsOf, totalWeight]
  | cons p ps ih =>
      simp only [List.foldl_cons, analyzeStep, vulnsOf, totalWeight, List.filterMap_cons,
        List.map_cons, List.sum_cons, portWeight]
      cases h : VULN_DB p.port with
      | none =>
          simp only [h, Option.map_none']
          rw [ih]
          simp [vulnsOf, totalWeight, portWeight]
      | some vuln =>
          simp only [h, Option.map_some']
          rw [ih]
          simp [vulnsOf, totalWeight, portWeight, Nat.add_assoc]

/-- Lemma: `vulnsOf` yields exactly one record per table-present input port. -/
theorem vulnsOf_length (ports : List OpenPort) :
    (vulnsOf ports).length
      = (ports.filter fun p => (VULN_DB p.port).isSome).length := by
  induction ports with
  | nil => rfl
  | cons p ps ih =>
      simp only [vulnsOf, List.filterMap_cons, List.filter_cons]
      cases h : VULN_DB p.port with
      | none => simpa [h, vulnsOf] using ih
      | some vuln => simpa [h, vulnsOf] using ih

/-- Closed form of `analyze`: risk score, record list and summary expressed
through `totalWeight` / `vulnsOf`. -/
theorem analyze_eq (ports : List OpenPort) :
    analyze ports
      = ⟨min 100 (totalWeight ports), vulnsOf ports,
         "Scan complete. Risk score: " ++ toString (min 100 (totalWeight ports)) ++ "/100. "
           ++ toString ports.length ++ " open port(s) detected. "
           ++ summaryTone (min 100 (totalWeight ports))⟩ := by
  simp [analyze, analyze_foldl_eq]


/-- C6: for every open-port list, `analyze` returns a risk score equal to the
sum of the severity weights (Critical=40, High=25, Medium=15, Low=5, other
severities defaulting to 5) of the table-present input ports capped at 100
(hence between 0 and 100), one vulnerability record per table-present port
and none for absent ports, and a summary whose closing tone is selected by
the thresholds score>70 / >40 / >0 / =0. -/
theorem claim_C6_aggregate_score (ports : List OpenPort) :
    (analyze ports).riskScore = min 100 (totalWeight ports) ∧
    0 ≤ (analyze ports).riskScore ∧ (analyze ports).riskScore ≤ 100 ∧
    (analyze ports).vulnerabilities = vulnsOf ports ∧
    (analyze ports).vulnerabilities.length
      = (ports.filter fun p => (VULN_DB p.port).isSome).length ∧
    (analyze ports).summary
      = "Scan complete. Risk score: " ++ toString (analyze ports).riskScore ++ "/100. "
          ++ toString ports.length ++ " open port(s) detected. "
          ++ summaryTone (analyze ports).riskScore ∧
    (∀ s, (SEVERITY_SCORES s).getD 5
        = if s = "Critical" then 40 else if s = "High" then 25
          else if s = "Medium" then 15 else 5) := by
  refine ⟨?_, Nat.zero_le _, ?_, ?_, ?_, ?_, ?_⟩
  · rw [analyze_eq]
  · rw [analyze_eq]; exact Nat.min_le_left _ _
  · rw [analyze_eq]
  · rw [analyze_eq]; exact vulnsOf_length ports
  · rw [analyze_eq]
  · intro s
    simp only [SEVERITY_SCORES]
    split_ifs <;> rfl

/-- C7: `analyzePort` never returns `null`; a port absent from `VULN_DB`
yields the synthetic Low-risk "Unknown Service" insight. -/
theorem claim_C7_analyzePort_total (port : Nat) (banner : Option String) :
    (analyzePort port banner).isSome = true ∧
    (VULN_DB port = none →
      analyzePort port banner
        = some ⟨port, "Low", "Unknown Service (Port " ++ toString port ++ ")",
                "Open port with unrecognized service."⟩) := by
  constructor
  · unfold analyzePort
    cases VULN_DB port <;> rfl
  · intro h
    unfold analyzePort
    rw [h]

/-- Witness for C7 at the table-absent port 31337. -/
theorem claim_C7_witness :
    analyzePort 31337 none
      = some ⟨31337, "Low", "Unknown Service (Port " ++ toString 31337 ++ ")",
              "Open port with unrecognized service."⟩ :=
  (claim_C7_analyzePort_total 31337 none).2 rfl

/-- C9: `analyze` is deterministic and idempotent — two calls on the same
open-port set produce identical reports (identical risk score, vulnerability
sequence, and summary text).  The embedding is a pure function because the
source reads only the immutable module-level tables `VULN_DB` and
`SEVERITY_SCORES` (no clock, randomness, or mutable state). -/
theorem claim_C9_analyze_deterministic (X Y : List OpenPort) (h : X = Y) :
    analyze X = analyze Y ∧
    (analyze X).riskScore = (analyze Y).riskScore ∧
    (analyze X).vulnerabilities = (analyze Y).vulnerabilities ∧
    (analyze X).summary = (analyze Y).summary := by
  subst h
  exact ⟨rfl, rfl, rfl, rfl⟩

/-- Witness for C9 on a concrete open-port set. -/
theorem claim_C9_witness :
    analyze [⟨22, some "SSH-2.0-OpenSSH_9.6"⟩, ⟨6379, none⟩]
      = analyze [⟨22, some "SSH-2.0-OpenSSH_9.6"⟩, ⟨6379, none⟩] :=
  (claim_C9_analyze_deterministic
    [⟨22, some "SSH-2.0-OpenSSH_9.6"⟩, ⟨6379, none⟩]
    [⟨22, some "SSH-2.0-OpenSSH_9.6"⟩, ⟨6379, none⟩] rfl).1

/-- Two open-port lists that agree on their port values have equal table
projections: same vulnerability records and same total severity weight. -/
theorem vulnsOf_totalWeight_map_eq (xs ys : List OpenPort)
    (h : xs.map OpenPort.port = ys.map OpenPort.port) :
    vulnsOf xs = vulnsOf ys ∧ totalWeight xs = totalWeight ys := by
  induction xs generalizing ys with
  | nil =>
      cases ys with
      | nil => exact ⟨rfl, rfl⟩
      | cons y ys => simp at h
  | cons x xs ih =>
      cases ys with
      | nil => simp at h
      | cons y ys =>
          simp only [List.map_cons, List.cons.injEq] at h
          obtain ⟨hp, ht⟩ := h
          obtain ⟨hv, hw⟩ := ih ys ht
          constructor
          · have hv' := hv
            simp only [vulnsOf] at hv'
            simp only [vulnsOf, List.filterMap_cons, hp, hv']
          · simp only [totalWeight, List.map_cons, List.sum_cons, hp]
            simpa [totalWeight] using congrArg (portWeight y.port + ·) hw

/-- C10 (implicit): the risk analyzer outputs depend only on port numbers,
never on banners — inputs agreeing on port values but with arbitrary banner
fields produce identical `SecurityReport`s, and `analyzePort` ignores its
banner argument entirely. -/
theorem claim_C10_banner_independence (xs ys : List OpenPort)
    (h : xs.map OpenPort.port = ys.map OpenPort.port) :
    analyze xs = analyze ys ∧
    (∀ p b b', analyzePort p b = analyzePort p b') := by
  constructor
  · obtain ⟨hv, hw⟩ := vulnsOf_totalWeight_map_eq xs ys h
    have hlen : xs.length = ys.length := by
      have := congrArg List.length h
      simpa using this
    rw [analyze_eq, analyze_eq, hv, hw, hlen]
  · intro p b b'
    rfl

/-- Witness for C10: same ports, different banners, identical reports. -/
theorem claim_C10_witness :
    analyze [⟨80, some "Apache/2.4.58"⟩, ⟨443, none⟩]
      = analyze [⟨80, none⟩, ⟨443, some "nginx"⟩] :=
  (claim_C10_banner_independence
    [⟨80, some "Apache/2.4.58"⟩, ⟨443, none⟩]
    [⟨80, none⟩, ⟨443, some "nginx"⟩] rfl).1

/-! ## Target validator and parameter clamping: `src/server/services/scanner.ts`

The sanitizer and validator are character-level re-implementations of
`sanitizeTarget` / `validateTarget`.  JavaScript `String.prototype.trim`
removes Unicode whitespace; the embedding covers the ASCII whitespace
characters (all inputs appearing in the claims are ASCII).  `target.length`
counts UTF-16 code units in JavaScript and code points here; these agree on
ASCII input. -/

/-- ASCII whitespace removed by `input.trim()`. -/
def isJsSpace (c : Char) : Bool :=
  c == ' ' || c == '\t' || c == '\n' || c == '\r'

/-- Embedding of `input.trim()` on the character list. -/
def jsTrim (l : List Char) : List Char :=
  ((l.dropWhile isJsSpace).reverse.dropWhile isJsSpace).reverse

/-- Case-insensitive anchored match: if `l` starts with `pat`
(compared after lowercasing the characters of `l`; `pat` is given lowercase),
return the remainder. -/
def stripCaseless : List Char → List Char → Option (List Char)
  | [], l => some l
  | _ :: _, [] => none
  | p :: ps, c :: cs => if c.toLower = p then stripCaseless ps cs else none

/-- Embedding of `target.replace(/^https?:\/\//i, "")`: one leading scheme occurrence is
removed (trying `https://` before `http://` is equivalent to the regex with
optional `s`, since no string matches both). -/
def dropScheme (l : List Char) : List Char :=
  match stripCaseless "https://".data l with
  | some rest => rest
  | none =>
      match stripCaseless "http://".data l with
      | some rest => rest
      | none => l

/-- Embedding of `target.split('/')[0]`: the characters before the first `'/'`. -/
def beforeSlash (l : List Char) : List Char := l.takeWhile (fun c => c != '/')

/-- Embedding of `target.split(':')[0]`: the characters before the first `':'`. -/
def beforeColon (l : List Char) : List Char := l.takeWhile (fun c => c != ':')

/-- Embedding of `sanitizeTarget` of `scanner.ts` on the character list: trim, strip
scheme, strip path, strip port. -/
def sanitizeChars (l : List Char) : List Char :=
  beforeColon (beforeSlash (dropScheme (jsTrim l)))

/-- Embedding of `sanitizeTarget(input)` of `scanner.ts`. -/
def sanitizeTarget (input : String) : String :=
  String.mk (sanitizeChars input.data)

/-- Split at every `'.'` (like the literal regex dots / `String.split`):
`splitOnDot "a.b"` is `[['a'], ['b']]`; empty groups are kept. -/
def splitOnDot : List Char → List (List Char)
  | [] => [[]]
  | c :: cs =>
      if c = '.' then [] :: splitOnDot cs
      else
        match splitOnDot cs with
        | g :: gs => (c :: g) :: gs
        | [] => [[c]]

/-- One `\d{1,3}` group of the IPv4 pattern. -/
def isIPv4Group (g : List Char) : Bool :=
  decide (0 < g.length) && decide (g.length ≤ 3) && g.all Char.isDigit

/-- The IPv4 regex `^\d{1,3}\.\d{1,3}\.\d{1,3}\.\d{1,3}$`: exactly four
dot-separated groups of 1–3 decimal digits (no 0–255 range check). -/
def isIPv4Chars (l : List Char) : Bool :=
  let gs := splitOnDot l
  gs.length == 4 && gs.all isIPv4Group

/-- A character allowed inside a hostname label: `[a-zA-Z0-9-]`. -/
def isLabelChar (c : Char) : Bool := c.isAlphanum || c == '-'

/-- Last character of the nonempty list `x :: l`. -/
def lastChar (x : Char) : List Char → Char
  | [] => x
  | y :: ys => lastChar y ys

/-- One label of the hostname regex
`[a-zA-Z0-9]([a-zA-Z0-9-]{0,61}[a-zA-Z0-9])?`: 1–63 characters, alphanumeric
or hyphen, starting and ending alphanumeric. -/
def isHostLabel : List Char → Bool
  | [] => false
  | c :: cs =>
      decide (cs.length + 1 ≤ 63) && c.isAlphanum
        && (c :: cs).all isLabelChar && (lastChar c cs).isAlphanum

/-- The hostname regex of `validateTarget`: dot-separated valid labels
(an empty group, as produced by leading/trailing/double dots, fails). -/
def isHostnameChars (l : List Char) : Bool :=
  (splitOnDot l).all isHostLabel

/-- Embedding of `validateTarget(target)` of `scanner.ts`. -/
def validateTarget (target : String) : Bool :=
  let l := target.data
  if l.isEmpty || decide (l.length > 255) then false
  else isIPv4Chars l || isHostnameChars l

/-- Record `ScanConfig` of `scanner.ts` (`concurrency`/`timeout` are caller-supplied
and may be out of range, hence `Int`). -/
structure ScanConfig where
  scanId : String
  target : String
  ports : List Nat
  concurrency : Int
  timeout : Int
  deriving DecidableEq, Repr

/-- The arguments `ScannerService.startScan` hands to `runScan` after
sanitization, validation and clamping. -/
structure RunScanArgs where
  host : String
  ports : List Nat
  concurrency : Int
  timeout : Int
  deriving DecidableEq, Repr

/-- Embedding of `ScannerService.startScan(config)`: sanitize and validate the target
(throwing `Invalid target` before any probe work otherwise), then clamp
concurrency to `[10, 500]` and timeout to the port-count-dependent ceiling
(`≤400` for more than 500 ports, `≤800` otherwise). -/
def startScan (config : ScanConfig) : Except String RunScanArgs :=
  let target := sanitizeTarget config.target
  if validateTarget target then
    Except.ok
      { host := target
        ports := config.ports
        concurrency := max 10 (min config.concurrency 500)
        timeout :=
          if config.ports.length > 500 then min config.timeout 400
          else min config.timeout 800 }
  else
    Except.error ("Invalid target: \"" ++ config.target ++ "\"")

/-- C4: whenever `startScan` accepts a config, the scan runs with effective
concurrency `max(10, min(requested, 500))` and effective timeout
`min(requested, 400)` when more than 500 ports are requested, else
`min(requested, 800)`, independent of the caller-requested values; the port
list is passed through unchanged. -/
theorem claim_C4_clamping (config : ScanConfig) (args : RunScanArgs)
    (h : startScan config = Except.ok args) :
    args.concurrency = max 10 (min config.concurrency 500) ∧
    args.timeout
      = (if config.ports.length > 500 then min config.timeout 400
         else min config.timeout 800) ∧
    args.ports = config.ports := by
  simp only [startScan] at h
  rcases hval : validateTarget (sanitizeTarget config.target)
  · rw [hval] at h
    exact absurd h (by simp)
  · rw [hval] at h
    simp only [if_true] at h
    cases h
    exact ⟨rfl, rfl, rfl⟩

/-- Witness for C4: an accepted config requesting out-of-range values is
clamped to concurrency 500 and timeout 800. -/
theorem claim_C4_witness :
    (⟨"example.com", [80, 443], 500, 800⟩ : RunScanArgs).concurrency
        = max 10 (min 9999 500) ∧
    (⟨"example.com", [80, 443], 500, 800⟩ : RunScanArgs).timeout
        = (if ([80, 443] : List Nat).length > 500 then min 9999 400
           else min (9999 : Int) 800) ∧
    (⟨"example.com", [80, 443], 500, 800⟩ : RunScanArgs).ports = [80, 443] :=
  claim_C4_clamping ⟨"scan-1", "example.com", [80, 443], 9999, 9999⟩
    ⟨"example.com", [80, 443], 500, 800⟩ rfl

set_option maxRecDepth 8192 in
/-- C5: target normalization strips the leading case-insensitive scheme,
everything from the first `/`, and the `:port` tail (the composition
`beforeColon ∘ beforeSlash ∘ dropScheme ∘ jsTrim`); the normalized target is
accepted — and hence `startScan` proceeds — iff it is non-empty, at most 255
characters, and matches the 4-group 1–3-digit IPv4 pattern (no per-octet
range check, so `999.999.999.999` passes) or the hostname-label pattern;
rejection happens synchronously in `startScan` before any probe is started.
The four concrete examples given by the claim are included. -/
theorem claim_C5_target_normalization :
    (∀ s : String,
        sanitizeTarget s
          = String.mk (beforeColon (beforeSlash (dropScheme (jsTrim s.data))))) ∧
    (∀ t : String,
        validateTarget t = true ↔
          (t.data ≠ [] ∧ t.data.length ≤ 255 ∧
            (isIPv4Chars t.data = true ∨ isHostnameChars t.data = true))) ∧
    (∀ config : ScanConfig,
        (startScan config).isOk = true ↔
          validateTarget (sanitizeTarget config.target) = true) ∧
    sanitizeTarget "http://192.168.1.1:8080/path" = "192.168.1.1" ∧
    sanitizeTarget "https://example.com/" = "example.com" ∧
    validateTarget (sanitizeTarget "") = false ∧
    validateTarget (sanitizeTarget (String.mk (List.replicate 300 'a'))) = false ∧
    validateTarget "999.999.999.999" = true := by
  refine ⟨fun s => rfl, ?_, ?_, by decide, by decide, by decide, ?_, by decide⟩
  · intro t
    simp only [validateTarget]
    by_cases h1 : t.data = []
    · simp [h1]
    · by_cases h2 : t.data.length ≤ 255
      · have h3 : ¬ (t.data.length > 255) := by omega
        simp [h1, h2, h3, List.isEmpty_iff]
      · have h3 : t.data.length > 255 := by omega
        simp [h1, h2, h3, List.isEmpty_iff]
  · intro config
    simp only [startScan]
    rcases hval : validateTarget (sanitizeTarget config.target)
    · simp [Except.isOk, Except.toBool]
    · simp [Except.isOk, Except.toBool]
  · -- 300 `a`s survive sanitization unchanged and fail the length bound
    decide

/-- Witness for C5: a URL-wrapped IPv4 target is accepted by `startScan`. -/
theorem claim_C5_witness :
    (startScan ⟨"scan-1", "http://192.168.1.1:8080/path", [80], 100, 500⟩).isOk
      = true :=
  (claim_C5_target_normalization.2.2.1
    ⟨"scan-1", "http://192.168.1.1:8080/path", [80], 100, 500⟩).mpr (by decide)

/-! ## Abort registry: `activeScans` in `src/server/services/scanner.ts`

`activeScans` is a `Map<string, AbortController>`.  Only the key set matters
for the registry claims (the controller value is the cancellation token whose
signal is modelled separately as a scheduler event), so the registry is the
list of live scanIds in insertion order.  JavaScript `Map` keys are unique;
`registryDelete` removes every binding of the key, which coincides with
the single-entry removal of `Map.delete` on the unique-key states produced by
`registrySet` and keeps the lemmas hypothesis-free. -/

/-- Embedding of `activeScans.set(scanId, abort)`: value replacement on an existing key
leaves the key set unchanged; a new key is appended. -/
def registrySet (m : List String) (scanId : String) : List String :=
  if m.contains scanId then m else m ++ [scanId]

/-- Embedding of `activeScans.delete(scanId)`. -/
def registryDelete (m : List String) (scanId : String) : List String :=
  m.filter (fun k => k != scanId)

/-- Embedding of `ScannerService.isActive(scanId)`: `activeScans.has(scanId)`. -/
def isActive (m : List String) (scanId : String) : Bool :=
  m.contains scanId

/-- Embedding of `ScannerService.abortScan(scanId)`: when a live entry matches, signal its
token, remove the entry immediately, return `true`; otherwise return `false`
leaving the registry unchanged. -/
def abortScan (m : List String) (scanId : String) : Bool × List String :=
  if m.contains scanId then (true, registryDelete m scanId) else (false, m)

/-- Deleting a scanId leaves it inactive. -/
theorem isActive_registryDelete (m : List String) (scanId : String) :
    isActive (registryDelete m scanId) scanId = false := by
  simp only [isActive, registryDelete]
  rw [Bool.eq_false_iff]
  intro hc
  have hmem := List.elem_iff.mp hc
  have hpred := (List.mem_filter.mp hmem).2
  simp at hpred

/-- Lemma: `registryDelete` is idempotent. -/
theorem registryDelete_idem (m : List String) (scanId : String) :
    registryDelete (registryDelete m scanId) scanId = registryDelete m scanId := by
  simp [registryDelete, List.filter_filter]

/-- A `contains = false` result means non-membership. -/
theorem not_mem_of_contains_false {m : List String} {x : String}
    (h : m.contains x = false) : x ∉ m :=
  fun hm => Bool.false_ne_true (h ▸ List.elem_iff.mpr hm)

/-- Deleting an absent scanId is a no-op. -/
theorem registryDelete_absent (m : List String) (scanId : String)
    (h : m.contains scanId = false) : registryDelete m scanId = m := by
  unfold registryDelete
  refine List.filter_eq_self.mpr ?_
  intro k hk
  rcases eq_or_ne k scanId with rfl | hne
  · exact absurd hk (not_mem_of_contains_false h)
  · simpa using hne

/-- Unfolding `abortScan` on a live entry. -/
theorem abortScan_pos (m : List String) (scanId : String)
    (h : m.contains scanId = true) :
    abortScan m scanId = (true, registryDelete m scanId) := by
  unfold abortScan
  rw [if_pos h]

/-- Unfolding `abortScan` on an absent entry. -/
theorem abortScan_neg (m : List String) (scanId : String)
    (h : m.contains scanId = false) :
    abortScan m scanId = (false, m) := by
  unfold abortScan
  rw [if_neg (fun hc => Bool.false_ne_true (h ▸ hc))]

/-- C8: `abortScan` returns `true` iff a live scan matched; a successful
abort removes the entry immediately, so `isActive` is `false` right after it
(before any drain); a second `abortScan` on the same id is a no-op returning
`false`; the registry entry is removed at most once — the completion-path
delete (`activeScans.delete` in the `onComplete` wrapper) after an abort, or
a repeated delete, changes nothing, and a natural-completion delete likewise
leaves the id inactive. -/
theorem claim_C8_abort_registry (m : List String) (scanId : String) :
    ((abortScan m scanId).1 = true ↔ isActive m scanId = true) ∧
    isActive (abortScan m scanId).2 scanId = false ∧
    abortScan (abortScan m scanId).2 scanId = (false, (abortScan m scanId).2) ∧
    registryDelete (abortScan m scanId).2 scanId = (abortScan m scanId).2 ∧
    isActive (registryDelete m scanId) scanId = false := by
  refine ⟨?_, ?_, ?_, ?_, isActive_registryDelete m scanId⟩
  · rcases hb : m.contains scanId
    · rw [abortScan_neg m scanId hb]
      exact ⟨fun hf => absurd hf Bool.false_ne_true,
             fun hc => absurd hc (fun hc' => Bool.false_ne_true (hb ▸ hc'))⟩
    · rw [abortScan_pos m scanId hb]
      exact ⟨fun _ => hb, fun _ => rfl⟩
  · rcases hb : m.contains scanId
    · rw [abortScan_neg m scanId hb]
      exact hb
    · rw [abortScan_pos m scanId hb]
      exact isActive_registryDelete m scanId
  · rcases hb : m.contains scanId
    · rw [abortScan_neg m scanId hb]
      exact abortScan_neg m scanId hb
    · rw [abortScan_pos m scanId hb]
      exact abortScan_neg (registryDelete m scanId) scanId
        (isActive_registryDelete m scanId)
  · rcases hb : m.contains scanId
    · rw [abortScan_neg m scanId hb]
      exact registryDelete_absent m scanId hb
    · rw [abortScan_pos m scanId hb]
      exact registryDelete_idem m scanId

/-- Witness for C8 on a two-scan registry. -/
theorem claim_C8_witness :
    (abortScan ["scan-1", "scan-2"] "scan-1").1 = true ∧
    isActive (abortScan ["scan-1", "scan-2"] "scan-1").2 "scan-1" = false :=
  ⟨(claim_C8_abort_registry ["scan-1", "scan-2"] "scan-1").1.mpr rfl,
   (claim_C8_abort_registry ["scan-1", "scan-2"] "scan-1").2.1⟩

/-! ## Single-port probe: `scanPort` in `src/server/utils/portQueue.ts`

`scanPort(host, port, timeout)` opens a `net.Socket` with
`socket.setTimeout(timeout)` and resolves exactly once (the `resolved`
guard) with the first terminal event:

* `"error"` with `ECONNREFUSED`/`ECONNRESET` → `closed`, any other code →
  `filtered`;
* `"timeout"` → `filtered` — note that the Node socket timeout is an
  *inactivity* timer that stays armed after a successful connect (activity =
  bytes transferred; the connect/probe write resets it), so post-connect
  silence of `timeout` ms also fires it;
* `"connect"` → a probe payload is written (HTTP HEAD / nothing / `"\r\n"`
  depending on the port) and a 400 ms banner timer is started; the first
  `"data"` event resolves `open` immediately with the first ≤256 bytes of
  that chunk as banner (`banner.slice(0, 256) || undefined`); the banner
  timer expiring resolves `open` with no banner.  Both `open` outcomes carry
  `dur` measured at connect time.

The probe environment (what the network does) is a `ProbeBehavior`; the
embedding resolves the race between the data/error arrival time, the banner
timer (connect + 400 ms) and the inactivity timer (connect + `timeout` ms,
the write happening at connect time).  Deadline ties are a genuine
event-loop race in the source; the model lets the timer win ties, and the
theorems below keep their hypotheses away from the tie points.  Banner bytes
are modelled as `Char` lists (byte = ASCII char; the UTF-8 decode of
`chunk.toString` is identity on the ASCII banners at issue). -/

/-- Probe status `"open" | "closed" | "filtered"` (`opened` stands for the
status `open` of the source, which is a Lean keyword). -/
inductive Status where
  | opened
  | closed
  | filtered
  deriving DecidableEq, Repr

/-- Record `PortResult` of `portQueue.ts`. -/
structure PortResult where
  port : Nat
  status : Status
  duration : Nat
  banner : Option String
  deriving DecidableEq, Repr

/-- What happens on the wire after a successful TCP connect: nothing ever,
first data after `delay` ms, or a socket error after `delay` ms. -/
inductive PostConnect where
  | silence
  | dataAt (delay : Nat) (bytes : List Char)
  | errorAt (delay : Nat) (code : String)
  deriving DecidableEq, Repr

/-- The network-side behavior of one probe: a socket error `t` ms after the
attempt starts, no response at all (dropped SYN), or a connect completing
after `c` ms followed by `post`. -/
inductive ProbeBehavior where
  | errorBefore (t : Nat) (code : String)
  | silentDrop
  | connects (c : Nat) (post : PostConnect)
  deriving DecidableEq, Repr

/-- The error-code test of the `"error"` handler:
`err.code === "ECONNREFUSED" || err.code === "ECONNRESET"`. -/
def isRefusedOrReset (code : String) : Bool :=
  code == "ECONNREFUSED" || code == "ECONNRESET"

/-- Embedding of `banner.slice(0, 256) || undefined` applied to the first data chunk:
the first ≤256 bytes, or no banner when empty. -/
def bannerSlice (bytes : List Char) : Option String :=
  let b := bytes.take 256
  if b.isEmpty then none else some (String.mk b)

/-- Embedding of `scanPort(host, port, timeout)` under environment `b`: the settled
`PortResult` produced by the first terminal event as described above. -/
def scanPort (port : Nat) (timeout : Nat) (b : ProbeBehavior) : PortResult :=
  match b with
  | .errorBefore t code =>
      if t < timeout then
        -- "error" fires before the inactivity timer
        if isRefusedOrReset code then ⟨port, .closed, t, none⟩
        else ⟨port, .filtered, t, none⟩
      else
        -- inactivity timer fires first: "timeout" → filtered
        ⟨port, .filtered, timeout, none⟩
  | .silentDrop => ⟨port, .filtered, timeout, none⟩
  | .connects c post =>
      if c < timeout then
        match post with
        | .silence =>
            -- race: banner timer at c+400 vs inactivity timer at c+timeout
            if 400 < timeout then ⟨port, .opened, c, none⟩
            else ⟨port, .filtered, c + timeout, none⟩
        | .dataAt d bytes =>
            -- race: data at c+d vs banner timer at c+400 vs inactivity at c+timeout
            if d < min 400 timeout then ⟨port, .opened, c, bannerSlice bytes⟩
            else if 400 < timeout then ⟨port, .opened, c, none⟩
            else ⟨port, .filtered, c + timeout, none⟩
        | .errorAt d code =>
            if d < min 400 timeout then
              if isRefusedOrReset code then ⟨port, .closed, c + d, none⟩
              else ⟨port, .filtered, c + d, none⟩
            else if 400 < timeout then ⟨port, .opened, c, none⟩
            else ⟨port, .filtered, c + timeout, none⟩
      else
        -- connect attempt outlives the inactivity timer: connect timeout
        ⟨port, .filtered, timeout, none⟩

/-- C3 counterexample: with an effective socket timeout of 300 ms (any value
the caller requests below 400 survives clamping), a probe that connects
immediately to a silent service is classified `filtered` — the inactivity
timer fires at connect+300 ms, before the 400 ms banner window ends — so a
successful connect alone does *not* always classify the port open. -/
theorem claim_C3_counterexample :
    (scanPort 80 300 (ProbeBehavior.connects 0 PostConnect.silence)).status
        = Status.filtered ∧
    (scanPort 80 300 (ProbeBehavior.connects 0 PostConnect.silence)).status
        ≠ Status.opened := by
  decide

/-- C3 amended: when the socket inactivity timeout exceeds the 400 ms banner
window, every probe settles with exactly one status as the claim states:
refused/reset before connect → `closed`; connect timeout or other network
error → `filtered`; successful connect → `open`, with banner equal to the
first ≤256 bytes of the first data chunk when data arrives inside the 400 ms
window and no banner when the window expires silently (data arriving after
the window is ignored).  A post-connect refused/reset inside the window
still settles `closed` — the `"error"` handler outlives the connect — which
is the second correction to the claim. -/
theorem claim_C3_probe_statuses (port : Nat) (timeout : Nat) (h : 400 < timeout) :
    (∀ t code, t < timeout → isRefusedOrReset code = true →
        scanPort port timeout (.errorBefore t code) = ⟨port, .closed, t, none⟩) ∧
    (∀ t code, t < timeout → isRefusedOrReset code = false →
        scanPort port timeout (.errorBefore t code) = ⟨port, .filtered, t, none⟩) ∧
    scanPort port timeout .silentDrop = ⟨port, .filtered, timeout, none⟩ ∧
    (∀ c, c < timeout →
        scanPort port timeout (.connects c .silence) = ⟨port, .opened, c, none⟩) ∧
    (∀ c d bytes, c < timeout → d < 400 →
        scanPort port timeout (.connects c (.dataAt d bytes))
          = ⟨port, .opened, c, bannerSlice bytes⟩) ∧
    (∀ c d bytes, c < timeout → 400 ≤ d →
        scanPort port timeout (.connects c (.dataAt d bytes))
          = ⟨port, .opened, c, none⟩) ∧
    (∀ c d code, c < timeout → d < 400 → isRefusedOrReset code = true →
        scanPort port timeout (.connects c (.errorAt d code))
          = ⟨port, .closed, c + d, none⟩) := by
  have hmin : min 400 timeout = 400 := Nat.min_eq_left (Nat.le_of_lt h)
  refine ⟨?_, ?_, rfl, ?_, ?_, ?_, ?_⟩
  · intro t code ht hc
    simp [scanPort, ht, hc]
  · intro t code ht hc
    simp [scanPort, ht, hc]
  · intro c hc
    simp [scanPort, hc, h]
  · intro c d bytes hc hd
    have : d < min 400 timeout := by omega
    simp [scanPort, hc, this]
  · intro c d bytes hc hd
    have : ¬ d < min 400 timeout := by omega
    simp [scanPort, hc, this, h]
  · intro c d code hc hd hcode
    have : d < min 400 timeout := by omega
    simp [scanPort, hc, this, hcode]

/-- Witness for the amended C3 at timeout 800: silent open port and an
HTTP banner grab. -/
theorem claim_C3_witness :
    scanPort 8080 800 (.connects 10 .silence) = ⟨8080, .opened, 10, none⟩ ∧
    scanPort 80 800 (.connects 5 (.dataAt 50 "HTTP/1.0 200 OK".data))
      = ⟨80, .opened, 5, bannerSlice "HTTP/1.0 200 OK".data⟩ :=
  ⟨(claim_C3_probe_statuses 8080 800 (by decide)).2.2.2.1 10 (by decide),
   (claim_C3_probe_statuses 80 800 (by decide)).2.2.2.2.1 5 50
     "HTTP/1.0 200 OK".data (by decide) (by decide)⟩

/-! ## Scheduler event loop: `runScan` in `src/server/utils/portQueue.ts`

`runScan` is single-threaded event-loop code: all mutation happens inside
the synchronous executor, the `next()` closure, and the `.then` continuation
of each `scanPort` promise, and these run atomically between I/O events.
The embedding is therefore a deterministic transition system over the
closure state (`index`, `scanned`, `results`) driven by an explicit event
schedule: `abort` (the `AbortController` fires between microtasks) and
`settle k r throws progressDue` (the probe launched as the `k`-th port
settles with result `r`).  Callback invocations are recorded in the state.

Two aspects of the source need care:

* `onResult` is invoked inside the `.then` continuation.  If it throws, the
  continuation stops after the `results.push` that precedes it and the
  rejection lands in the *derived* promise `scanPort(...).then(...)`, which
  nothing observes — it does NOT reject the outer `new Promise` returned by
  `runScan`, so the `.catch` attached in `ScannerService.startScan` never
  runs.  The flag `swallowedThrow` records that this happened.

* the progress throttle `now - lastProgressTime > 50` depends on wall time;
  each settle event carries the oracle `progressDue` for it.

`total` abbreviates `ports.length`; the identity of the port values is
irrelevant to the scheduling claims (each settle event carries its
`PortResult`).  The Nat subtraction in `scanned + (total - index) >= total`
matches the source because `index ≤ total` throughout (ports are only
launched while `index < total`). -/

/-- The mutable state of one `runScan` call, plus the record of callback
invocations and bookkeeping for launched-but-unsettled probes. -/
structure RunState where
  index : Nat
  scanned : Nat
  results : List PortResult
  aborted : Bool
  inflight : List Nat
  onResultCalls : List PortResult
  onProgressCalls : List (Nat × Nat)
  onCompleteCalls : List (List PortResult)
  resolved : Bool
  swallowedThrow : Bool
  deriving DecidableEq, Repr

/-- The state at the top of the `new Promise` executor. -/
def initState : RunState :=
  ⟨0, 0, [], false, [], [], [], [], false, false⟩

/-- Embedding of `onComplete(results); resolve();` — recorded unconditionally, exactly as
the source calls it (there is no once-guard around `onComplete`). -/
def complete (s : RunState) : RunState :=
  { s with onCompleteCalls := s.onCompleteCalls ++ [s.results], resolved := true }

/-- The `while (index < total && (scanned + (index - scanned) - results.length)
< concurrency)` launch loop of `next()`.  The loop condition simplifies to
`index - results.length < concurrency`; each iteration launches port
`index` and increments `index`, so `total - index` bounds the iteration
count exactly and serves as structural fuel (the guard still decides
termination, the fuel is never the binding constraint). -/
def launchLoop (concurrency total : Nat) : Nat → RunState → RunState
  | 0, s => s
  | fuel + 1, s =>
      if s.index < total ∧ s.index - s.results.length < concurrency then
        launchLoop concurrency total fuel
          { s with index := s.index + 1, inflight := s.inflight ++ [s.index] }
      else s

/-- The `next()` closure: on an aborted signal, complete if
`scanned + (total - index) >= total || results.length === scanned`, else do
nothing; otherwise run the launch loop. -/
def nextFn (concurrency total : Nat) (s : RunState) : RunState :=
  if s.aborted then
    if total ≤ s.scanned + (total - s.index) ∨ s.results.length = s.scanned then
      complete s
    else s
  else launchLoop concurrency total (total - s.index) s

/-- One probe settling: the `.then` continuation of `scanPort(...)`.
`throws` says the supplied callback `onResult` throws when invoked; `progressDue`
is the wall-clock throttle oracle `now - lastProgressTime > 50`. -/
def settleStep (concurrency total : Nat) (probeIndex : Nat) (result : PortResult)
    (throws progressDue : Bool) (s : RunState) : RunState :=
  if s.inflight.contains probeIndex = false then s
  else
    let s1 := { s with inflight := s.inflight.erase probeIndex }
    if s1.aborted then
      -- aborted branch: count the settle, discard the result
      let s2 := { s1 with scanned := s1.scanned + 1 }
      if total ≤ s2.scanned then complete s2 else s2
    else
      -- scanned++; results.push(result); onResult(result)
      let s2 := { s1 with
        scanned := s1.scanned + 1,
        results := s1.results ++ [result],
        onResultCalls := s1.onResultCalls ++ [result] }
      if throws then { s2 with swallowedThrow := true }
      else
        let s3 :=
          if progressDue || decide (total ≤ s2.scanned) then
            { s2 with onProgressCalls := s2.onProgressCalls ++ [(s2.scanned, total)] }
          else s2
        if total ≤ s3.scanned then complete s3
        else nextFn concurrency total s3

/-- An event delivered to the scan execution context. -/
inductive RunEvent where
  | abort
  | settle (probeIndex : Nat) (result : PortResult) (throws progressDue : Bool)
  deriving DecidableEq, Repr

/-- Event dispatch. -/
def stepEvent (concurrency total : Nat) (s : RunState) : RunEvent → RunState
  | .abort => { s with aborted := true }
  | .settle k r throws progressDue => settleStep concurrency total k r throws progressDue s

/-- Iterate a function `n` times. -/
def applyN (f : RunState → RunState) : Nat → RunState → RunState
  | 0, s => s
  | n + 1, s => applyN f n (f s)

/-- The synchronous executor body: `for (i < Math.min(concurrency, total))
next();` then the empty-port-list check. -/
def runScanInit (concurrency total : Nat) : RunState :=
  let s := applyN (nextFn concurrency total) (min concurrency total) initState
  if total = 0 then complete s else s

/-- A full `runScan` execution under the event schedule `events`. -/
def runScanExec (concurrency total : Nat) (events : List RunEvent) : RunState :=
  events.foldl (stepEvent concurrency total) (runScanInit concurrency total)

/-- Sanity: an unaborted two-port scan completes exactly once with both
results in settle order, emitting the final progress snapshot. -/
theorem runScan_natural_completion :
    runScanExec 2 2
        [RunEvent.settle 0 ⟨80, .opened, 5, none⟩ false false,
         RunEvent.settle 1 ⟨81, .closed, 3, none⟩ false false]
      = ⟨2, 2, [⟨80, .opened, 5, none⟩, ⟨81, .closed, 3, none⟩], false, [],
         [⟨80, .opened, 5, none⟩, ⟨81, .closed, 3, none⟩], [(2, 2)],
         [[⟨80, .opened, 5, none⟩, ⟨81, .closed, 3, none⟩]], true, false⟩ := by
  decide

/-- Sanity: an empty port list completes immediately with an empty result
collection and no `onResult`/`onProgress` calls. -/
theorem runScan_empty_ports :
    runScanExec 5 0 [] = ⟨0, 0, [], false, [], [], [], [[]], true, false⟩ := by
  decide

/-- Sanity: when the abort arrives after every port has been launched, the
drain path does complete the scan once with the pre-abort results — the
cancellation contract holds in that regime. -/
theorem runScan_abort_after_full_launch :
    runScanExec 2 2
        [RunEvent.settle 0 ⟨80, .opened, 5, none⟩ false false,
         RunEvent.abort,
         RunEvent.settle 1 ⟨81, .closed, 3, none⟩ false false]
      = ⟨2, 2, [⟨80, .opened, 5, none⟩], true, [],
         [⟨80, .opened, 5, none⟩], [], [[⟨80, .opened, 5, none⟩]], true, false⟩ := by
  decide

/-- C1: three ports, concurrency 1.  Port 0 settles and is accepted, the
abort signal arrives, the in-flight probe for port 1 settles and is
discarded.  At that point every previously-launched probe has settled
(`inflight = []`), no probe was launched after the signal (`index = 2`),
and the discarded result reached neither `results` nor `onResult` — but
`onComplete` was never invoked and the promise never resolved: in the
`.then` abort branch completion requires `scanned >= total` (2 ≥ 3 fails,
and can never hold because launching stopped), and `next()` is not called
again after an external abort, so the caller hangs silently, contradicting
the claim that `onComplete` fires once the launched probes drain. -/
theorem claim_C1_abort_never_completes :
    (runScanExec 1 3
        [RunEvent.settle 0 ⟨80, .opened, 5, none⟩ false false,
         RunEvent.abort,
         RunEvent.settle 1 ⟨81, .closed, 3, none⟩ false false])
      = ⟨2, 2, [⟨80, .opened, 5, none⟩], true, [],
         [⟨80, .opened, 5, none⟩], [], [], false, false⟩ ∧
    (runScanExec 1 3
        [RunEvent.settle 0 ⟨80, .opened, 5, none⟩ false false,
         RunEvent.abort,
         RunEvent.settle 1 ⟨81, .closed, 3, none⟩ false false]).onCompleteCalls
      = [] := by
  decide

/-- C2: a single-port scan whose caller-supplied `onResult` throws.  The
probe settles (`scanned = 1 = total`, `inflight = []`) and the result was
accepted, but the continuation dies at the throw: no progress, no
`onComplete`, the outer promise never resolves, and the rejection is
swallowed in the unobserved `scanPort(...).then(...)` chain
(`swallowedThrow = true`) — the `.catch` on `runScan` in
`ScannerService.startScan` (which would log, clear the registry entry and
call `onComplete([])`) never runs, contradicting the claim. -/
theorem claim_C2_callback_throw_not_caught :
    (runScanExec 1 1
        [RunEvent.settle 0 ⟨22, .opened, 4, some "SSH-2.0"⟩ true false])
      = ⟨1, 1, [⟨22, .opened, 4, some "SSH-2.0"⟩], false, [],
         [⟨22, .opened, 4, some "SSH-2.0"⟩], [], [], false, true⟩ ∧
    (runScanExec 1 1
        [RunEvent.settle 0 ⟨22, .opened, 4, some "SSH-2.0"⟩ true false]).onCompleteCalls
      = [] := by
  decide
